import Mathlib

/-!
Verification of the pulse-accumulation, telemetry retry and failure-escalation
core of `src/firmware.py` (ESP32 MicroPython telemetry agent).

The shallow embedding models the module-level mutable state touched by
`send_telemetry`, `check_wifi_connection` and `check_telemetry_failure_limit`
as an explicit record, and each call to `send_telemetry` as a pure step
function parameterised by its environment inputs (the HTTP response or
transport exception, whether a Wi-Fi reconnect would succeed, and how many
pulses the hardware PCNT units count while the request is in flight).
The startup path of `run` (settings load, `get_configuration`, signal-type
dispatch) is modelled separately as `run_setup`.
-/

/-- Constant `TELEMETRY_MAX_FAILURES` (firmware.py line 21). -/
def TELEMETRY_MAX_FAILURES : Nat := 5

/-- The module-level mutable state read and written by `send_telemetry`
(firmware.py lines 38-54).  `hwOutput` / `hwRejection` are the hardware PCNT
registers behind `output_pulse_counter_function.value()` and
`rejection_pulses_counter_function.value()`; `outputCounterEnabled` /
`rejectionCounterEnabled` record whether the corresponding
`*_counter_function` global is not `None` (it is set only when the channel is
enabled in the remote configuration, lines 215-226 and 229-240).
`wlanConnected` abstracts `wlan.isconnected()` (a `None` or disconnected
`wlan` both read as `false`). -/
structure FwState where
  hwOutput : Nat
  hwRejection : Nat
  outputCounterEnabled : Bool
  rejectionCounterEnabled : Bool
  accumulated_unsent_output : Nat
  accumulated_unsent_rejection : Nat
  telemetry_failures : Nat
  wlanConnected : Bool
deriving DecidableEq, Repr

/-- Outcome of the `requests.post` in `send_telemetry` (line 138): an HTTP
response with a status code, or a transport-level exception. -/
inductive SendResponse where
  | status (code : Nat)
  | exc
deriving DecidableEq, Repr

/-- `check_wifi_connection` (firmware.py lines 59-79).  If the link is up it
returns `True` at once; otherwise it attempts one reconnect
(`wifimgr.get_connection()`), modelled by the `reconnectSucceeds` input.
First component: the function's return value; second: the link state
afterwards. -/
def check_wifi_connection (wlanConnected reconnectSucceeds : Bool) : Bool × Bool :=
  if wlanConnected then (true, true)
  else if reconnectSucceeds then (true, true)
  else (false, false)

/-- `check_telemetry_failure_limit` (firmware.py lines 81-87): invokes
`reset()` exactly when `telemetry_failures >= TELEMETRY_MAX_FAILURES`,
otherwise returns `False`.  First component: whether `reset()` is invoked;
second: the Python return value (`False`; unreachable after a reset). -/
def check_telemetry_failure_limit (telemetry_failures : Nat) : Bool × Bool :=
  if telemetry_failures ≥ TELEMETRY_MAX_FAILURES then (true, false) else (false, false)

/-- Everything observable about one `send_telemetry` call: the state left
behind, the request parameters that were posted (lines 136-138), whether the
connectivity-recovery step of the failure path ran, whether `reset()` was
invoked, and the Python return value. -/
structure SendOutcome where
  st : FwState
  sentCurrent : Nat
  sentOutput : Nat
  sentRejection : Nat
  recoveryAttempted : Bool
  resetCalled : Bool
  returned : Bool
deriving DecidableEq, Repr

/-- The shared failure path of `send_telemetry` (lines 149-155 and 161-167,
then 169-171): save the unsent totals back into the accumulators, run the
connectivity-recovery step (which reconnects only when the link is down,
exactly the early-return behaviour of `check_wifi_connection`), increment
`telemetry_failures` and evaluate the escalation check. -/
def failureUpdate (st : FwState) (current totalOut totalRej hwOut hwRej : Nat)
    (wlanAfter : Bool) : SendOutcome :=
  let failures := st.telemetry_failures + 1
  { st := { st with
      hwOutput := hwOut
      hwRejection := hwRej
      accumulated_unsent_output := totalOut
      accumulated_unsent_rejection := totalRej
      telemetry_failures := failures
      wlanConnected := wlanAfter }
    sentCurrent := current
    sentOutput := totalOut
    sentRejection := totalRej
    recoveryAttempted := true
    resetCalled := (check_telemetry_failure_limit failures).1
    returned := (check_telemetry_failure_limit failures).2 }

/-- `send_telemetry` (firmware.py lines 114-171).  With IRQs disabled,
`value(0)` reads and clears each hardware counter (`0` when the channel has
no counter object); the totals add the previously unsent carry (lines
124-133).  `lateOutput` / `lateRejection` are the pulses the hardware counts
while the request is in flight: they land in the already-cleared registers.
On HTTP 200 the unsent accumulators and the failure count are zeroed (lines
140-146); on any other status or on an exception the totals are saved back,
the connectivity-recovery step runs, and the failure count is incremented and
checked against the limit (lines 147-171). -/
def send_telemetry (st : FwState) (current : Nat) (resp : SendResponse)
    (reconnectSucceeds : Bool) (lateOutput lateRejection : Nat) : SendOutcome :=
  let current_output_count := if st.outputCounterEnabled then st.hwOutput else 0
  let current_rejection_count := if st.rejectionCounterEnabled then st.hwRejection else 0
  let total_output_to_send := current_output_count + st.accumulated_unsent_output
  let total_rejection_to_send := current_rejection_count + st.accumulated_unsent_rejection
  let hwOut := if st.outputCounterEnabled then lateOutput else st.hwOutput
  let hwRej := if st.rejectionCounterEnabled then lateRejection else st.hwRejection
  match resp with
  | SendResponse.status code =>
      if code = 200 then
        { st := { st with
            hwOutput := hwOut
            hwRejection := hwRej
            accumulated_unsent_output := 0
            accumulated_unsent_rejection := 0
            telemetry_failures := 0 }
          sentCurrent := current
          sentOutput := total_output_to_send
          sentRejection := total_rejection_to_send
          recoveryAttempted := false
          resetCalled := false
          returned := true }
      else
        failureUpdate st current total_output_to_send total_rejection_to_send hwOut hwRej
          (if st.wlanConnected then st.wlanConnected
           else (check_wifi_connection st.wlanConnected reconnectSucceeds).2)
  | SendResponse.exc =>
      failureUpdate st current total_output_to_send total_rejection_to_send hwOut hwRej
        (check_wifi_connection st.wlanConnected reconnectSucceeds).2

/-- One externally observable event of the running firmware: a hardware edge
on the output PCNT (pin 18), a hardware edge on the rejection PCNT (pin 19),
or one timer-driven `send_telemetry` call (firmware.py line 245).  A pulse
arriving while a send is in flight lands in the already-cleared hardware
register, which is exactly the effect of a `.send` event (with zero in-flight
pulses) followed by that pulse event, so traces over these events cover every
interleaving. -/
inductive FwEvent where
  | outputPulse
  | rejectionPulse
  | send (current : Nat) (resp : SendResponse) (reconnect : Bool)
deriving DecidableEq, Repr

/-- Effect of one event on the firmware state: a pulse increments the
corresponding hardware PCNT register; a send runs `send_telemetry`. -/
def fwStep (st : FwState) : FwEvent → FwState
  | FwEvent.outputPulse => { st with hwOutput := st.hwOutput + 1 }
  | FwEvent.rejectionPulse => { st with hwRejection := st.hwRejection + 1 }
  | FwEvent.send cur resp rec => (send_telemetry st cur resp rec 0 0).st

/-- Run the firmware over a trace of events. -/
def fwRun (st : FwState) (tr : List FwEvent) : FwState :=
  tr.foldl fwStep st

/-- Specification-side counter: the output pulses in the trace since the last
successful report (an HTTP 200 send resets it; other sends leave it). -/
def outCount (n : Nat) (e : FwEvent) : Nat :=
  match e with
  | FwEvent.outputPulse => n + 1
  | FwEvent.rejectionPulse => n
  | FwEvent.send _ resp _ => if resp = SendResponse.status 200 then 0 else n

/-- Specification-side counter for the rejection channel. -/
def rejCount (n : Nat) (e : FwEvent) : Nat :=
  match e with
  | FwEvent.outputPulse => n
  | FwEvent.rejectionPulse => n + 1
  | FwEvent.send _ resp _ => if resp = SendResponse.status 200 then 0 else n

/-- Output pulses counted since the last successful report, over a trace from
boot (where both the hardware register and the unsent carry are zero). -/
def outputPulsesSinceSuccess (tr : List FwEvent) : Nat :=
  tr.foldl outCount 0

/-- Rejection pulses counted since the last successful report. -/
def rejectionPulsesSinceSuccess (tr : List FwEvent) : Nat :=
  tr.foldl rejCount 0

/-- Total unsent output pulses a state holds: the readable part of the
hardware register (`0` when the channel has no counter object) plus the
software carry `accumulated_unsent_output`. -/
def unsentOutputTotal (st : FwState) : Nat :=
  (if st.outputCounterEnabled then st.hwOutput else 0) + st.accumulated_unsent_output

/-- Total unsent rejection pulses a state holds. -/
def unsentRejectionTotal (st : FwState) : Nat :=
  (if st.rejectionCounterEnabled then st.hwRejection else 0) +
    st.accumulated_unsent_rejection

/-- `n` back-to-back `send_telemetry` cycles with the given response and no
pulses arriving in between (each cycle drains, fails or succeeds, and
restores). -/
def sendCycles (cur : Nat) (resp : SendResponse) (rec : Bool) :
    Nat → FwState → FwState
  | 0, st => st
  | Nat.succ n, st => sendCycles cur resp rec n (send_telemetry st cur resp rec 0 0).st

/-- A trace of `n` consecutive failing report attempts (HTTP 500, no pulses
in between). -/
def failTrace (n : Nat) : List FwEvent :=
  List.replicate n (FwEvent.send 0 (SendResponse.status 500) true)

/-- The state after `n` consecutive failing report attempts from `st0`. -/
def afterFailures (st0 : FwState) (n : Nat) : FwState :=
  fwRun st0 (failTrace n)

/-- The observable outcome of failing attempt number `i + 1` in a run of
consecutive failures from `st0`. -/
def nthFailureOutcome (st0 : FwState) (i : Nat) : SendOutcome :=
  send_telemetry (afterFailures st0 i) 0 (SendResponse.status 500) true 0 0

/-- A representative post-boot state: both channels configured, counters and
carries at zero, no failures yet, link up. -/
def exampleState : FwState :=
  ⟨0, 0, true, true, 0, 0, 0, true⟩

/-- Contents of `settings.json` (firmware.py lines 186-192). -/
structure DeviceSettings where
  site : String
  device_id : String
  api_key : String
  api_secret : String
deriving DecidableEq, Repr

/-- The `"data"` object of the remote configuration, with the fields `run`
reads (firmware.py lines 204, 215, 217, 229, 231, 243). -/
structure DeviceConfig where
  enable_state_logging : Bool
  enable_output_signal : Bool
  output_signal_type : String
  enable_rejection_signal : Bool
  rejection_signal_type : String
  telemetry_logging_frequency : Nat
deriving DecidableEq, Repr

/-- Outcome of the `requests.get` in `get_configuration` (line 103): a
response with a status code and, when the payload parses as JSON, its parsed
body (`none` models a `response.json()` that raises); or an exception. -/
inductive ConfigHttpResult where
  | response (status_code : Nat) (body : Option DeviceConfig)
  | exc
deriving DecidableEq, Repr

/-- `get_configuration` (firmware.py lines 97-112): returns the parsed body
on HTTP 200, and `None` on any other status code or any exception (including
a JSON parse failure on a 200 response). -/
def get_configuration (r : ConfigHttpResult) : Option DeviceConfig :=
  match r with
  | ConfigHttpResult.response code body => if code = 200 then body else none
  | ConfigHttpResult.exc => none

/-- The edge actions a signal counts on, per `PCNT` setup. -/
inductive EdgeAction where
  | ignore
  | increment
deriving DecidableEq, Repr

/-- The `(rising_action, falling_action)` pair bound by the signal-type
dispatch (firmware.py lines 219-224 and 233-238).  For a type other than
`'NPN'` or `'PNP'` neither branch runs and the two locals stay unbound, so
the following `PCNT(...)` line raises a `NameError`; `none` models that. -/
def edgeActions (t : String) : Option (EdgeAction × EdgeAction) :=
  if t = "NPN" then some (EdgeAction.ignore, EdgeAction.increment)
  else if t = "PNP" then some (EdgeAction.increment, EdgeAction.ignore)
  else none

/-- How the startup path of `run` ends: with a `reset()` call, or entering
the main loop with the configured per-channel edge actions (`none` for a
disabled channel) and the telemetry period. -/
inductive RunOutcome where
  | resetDevice
  | mainLoop (outputCounter rejectionCounter : Option (EdgeAction × EdgeAction))
      (telemetryPeriodSeconds : Nat)
deriving DecidableEq, Repr

/-- The startup path of `run` (firmware.py lines 182-245).  A settings load
failure resets at once (lines 193-195); a missing remote configuration
resets at once (lines 199-201).  `rising_action` / `falling_action` are
locals of `run`, bound only by whichever dispatch branches actually run: an
enabled output channel with a type that is neither `'NPN'` nor `'PNP'`
leaves them unbound and `PCNT(0, ...)` (line 225) raises, which the
top-level handler (lines 262-264) turns into a reset.  For the rejection
channel the same unknown type skips both branches at lines 233-238, and
`PCNT(1, ...)` (line 239) then reads whatever the locals hold: if the
output-channel dispatch bound them, the rejection counter silently reuses
the output channel's edge actions and setup continues; only when they were
never bound does line 239 raise and the device reset.  Otherwise the device
reaches the main loop with the configured counters. -/
def run_setup (settings : Option DeviceSettings) (configResp : ConfigHttpResult) :
    RunOutcome :=
  match settings with
  | none => RunOutcome.resetDevice
  | some _ =>
    match get_configuration configResp with
    | none => RunOutcome.resetDevice
    | some cfg =>
      -- output-channel setup (lines 215-226): `none` models the raise at
      -- line 225; otherwise the pair is (counter object, edge-action locals)
      let outputSetup : Option (Option (EdgeAction × EdgeAction) ×
          Option (EdgeAction × EdgeAction)) :=
        if cfg.enable_output_signal then
          match edgeActions cfg.output_signal_type with
          | some a => some (some a, some a)
          | none => none
        else some (none, none)
      match outputSetup with
      | none => RunOutcome.resetDevice
      | some (oc, boundActions) =>
        -- rejection-channel setup (lines 229-240): `none` models the raise
        -- at line 239, possible only when the locals are still unbound
        let rejectionSetup : Option (Option (EdgeAction × EdgeAction)) :=
          if cfg.enable_rejection_signal then
            match edgeActions cfg.rejection_signal_type with
            | some b => some (some b)
            | none =>
              match boundActions with
              | some a => some (some a)
              | none => none
          else some none
        match rejectionSetup with
        | none => RunOutcome.resetDevice
        | some rc => RunOutcome.mainLoop oc rc cfg.telemetry_logging_frequency

/-- The outcomes of the `send_telemetry` calls in a trace, in order. -/
def sendOutcomes (st : FwState) : List FwEvent → List SendOutcome
  | [] => []
  | FwEvent.send cur resp rec :: tr =>
      send_telemetry st cur resp rec 0 0 ::
        sendOutcomes (fwStep st (FwEvent.send cur resp rec)) tr
  | FwEvent.outputPulse :: tr => sendOutcomes (fwStep st FwEvent.outputPulse) tr
  | FwEvent.rejectionPulse :: tr => sendOutcomes (fwStep st FwEvent.rejectionPulse) tr

lemma check_limit_returned (n : Nat) : (check_telemetry_failure_limit n).2 = false := by
  unfold check_telemetry_failure_limit
  split <;> rfl

lemma check_limit_reset (n : Nat) :
    (check_telemetry_failure_limit n).1 = true ↔ TELEMETRY_MAX_FAILURES ≤ n := by
  unfold check_telemetry_failure_limit
  split <;> simp_all

/-- On any response other than HTTP 200 (and on a transport exception),
`send_telemetry` takes the shared failure path: both failure arms leave the
link in the state `check_wifi_connection` would (the non-200 arm's guard
`if not wlan.isconnected()` is exactly that function's early return). -/
lemma send_telemetry_fail (st : FwState) (cur : Nat) (resp : SendResponse)
    (rec : Bool) (lo lr : Nat) (h : resp ≠ SendResponse.status 200) :
    send_telemetry st cur resp rec lo lr =
      failureUpdate st cur
        ((if st.outputCounterEnabled then st.hwOutput else 0) +
          st.accumulated_unsent_output)
        ((if st.rejectionCounterEnabled then st.hwRejection else 0) +
          st.accumulated_unsent_rejection)
        (if st.outputCounterEnabled then lo else st.hwOutput)
        (if st.rejectionCounterEnabled then lr else st.hwRejection)
        (check_wifi_connection st.wlanConnected rec).2 := by
  cases resp with
  | status code =>
    have hc : code ≠ 200 := fun hh => h (by rw [hh])
    simp only [send_telemetry, if_neg hc]
    congr 1
    cases hw : st.wlanConnected <;> simp [check_wifi_connection]
  | exc => rfl

lemma fwStep_preserves_enabled (st : FwState) (e : FwEvent) :
    (fwStep st e).outputCounterEnabled = st.outputCounterEnabled ∧
    (fwStep st e).rejectionCounterEnabled = st.rejectionCounterEnabled := by
  cases e with
  | outputPulse => exact ⟨rfl, rfl⟩
  | rejectionPulse => exact ⟨rfl, rfl⟩
  | send cur resp rec =>
    cases resp with
    | status code =>
      by_cases h : code = 200 <;>
        simp [fwStep, send_telemetry, failureUpdate, h]
    | exc => exact ⟨rfl, rfl⟩

lemma fwStep_out_total (st : FwState) (e : FwEvent)
    (hEn : st.outputCounterEnabled = true) :
    (fwStep st e).hwOutput + (fwStep st e).accumulated_unsent_output
      = outCount (st.hwOutput + st.accumulated_unsent_output) e := by
  cases e with
  | outputPulse => simp [fwStep, outCount]; omega
  | rejectionPulse => rfl
  | send cur resp rec =>
    by_cases h : resp = SendResponse.status 200
    · subst h
      simp [fwStep, send_telemetry, outCount, hEn]
    · rw [show fwStep st (FwEvent.send cur resp rec)
          = (send_telemetry st cur resp rec 0 0).st from rfl,
        send_telemetry_fail st cur resp rec 0 0 h]
      simp [failureUpdate, outCount, hEn, h]

lemma fwStep_rej_total (st : FwState) (e : FwEvent)
    (hEn : st.rejectionCounterEnabled = true) :
    (fwStep st e).hwRejection + (fwStep st e).accumulated_unsent_rejection
      = rejCount (st.hwRejection + st.accumulated_unsent_rejection) e := by
  cases e with
  | outputPulse => rfl
  | rejectionPulse => simp [fwStep, rejCount]; omega
  | send cur resp rec =>
    by_cases h : resp = SendResponse.status 200
    · subst h
      simp [fwStep, send_telemetry, rejCount, hEn]
    · rw [show fwStep st (FwEvent.send cur resp rec)
          = (send_telemetry st cur resp rec 0 0).st from rfl,
        send_telemetry_fail st cur resp rec 0 0 h]
      simp [failureUpdate, rejCount, hEn, h]

lemma conservation_out_aux (tr : List FwEvent) :
    ∀ st : FwState, st.outputCounterEnabled = true →
      (fwRun st tr).hwOutput + (fwRun st tr).accumulated_unsent_output
        = tr.foldl outCount (st.hwOutput + st.accumulated_unsent_output) := by
  induction tr with
  | nil => intro st _; rfl
  | cons e tr ih =>
    intro st h
    have hstep := fwStep_out_total st e h
    have hrun : fwRun st (e :: tr) = fwRun (fwStep st e) tr := rfl
    have hfold : (e :: tr).foldl outCount (st.hwOutput + st.accumulated_unsent_output)
        = tr.foldl outCount (outCount (st.hwOutput + st.accumulated_unsent_output) e) := rfl
    rw [hrun, hfold, ← hstep]
    exact ih (fwStep st e) ((fwStep_preserves_enabled st e).1.trans h)

lemma conservation_rej_aux (tr : List FwEvent) :
    ∀ st : FwState, st.rejectionCounterEnabled = true →
      (fwRun st tr).hwRejection + (fwRun st tr).accumulated_unsent_rejection
        = tr.foldl rejCount (st.hwRejection + st.accumulated_unsent_rejection) := by
  induction tr with
  | nil => intro st _; rfl
  | cons e tr ih =>
    intro st h
    have hstep := fwStep_rej_total st e h
    have hrun : fwRun st (e :: tr) = fwRun (fwStep st e) tr := rfl
    have hfold : (e :: tr).foldl rejCount (st.hwRejection + st.accumulated_unsent_rejection)
        = tr.foldl rejCount (rejCount (st.hwRejection + st.accumulated_unsent_rejection) e) := rfl
    rw [hrun, hfold, ← hstep]
    exact ih (fwStep st e) ((fwStep_preserves_enabled st e).2.trans h)

lemma fwRun_outputPulses (n : Nat) :
    ∀ st : FwState, fwRun st (List.replicate n FwEvent.outputPulse)
      = { st with hwOutput := st.hwOutput + n } := by
  induction n with
  | zero => intro st; simp [fwRun]
  | succ n ih =>
    intro st
    rw [List.replicate_succ]
    have : fwRun st (FwEvent.outputPulse :: List.replicate n FwEvent.outputPulse)
        = fwRun (fwStep st FwEvent.outputPulse) (List.replicate n FwEvent.outputPulse) := rfl
    rw [this, ih]
    simp [fwStep]
    omega

lemma fwRun_rejectionPulses (n : Nat) :
    ∀ st : FwState, fwRun st (List.replicate n FwEvent.rejectionPulse)
      = { st with hwRejection := st.hwRejection + n } := by
  induction n with
  | zero => intro st; simp [fwRun]
  | succ n ih =>
    intro st
    rw [List.replicate_succ]
    have : fwRun st (FwEvent.rejectionPulse :: List.replicate n FwEvent.rejectionPulse)
        = fwRun (fwStep st FwEvent.rejectionPulse) (List.replicate n FwEvent.rejectionPulse) := rfl
    rw [this, ih]
    simp [fwStep]
    omega

/-- Justification for treating each `send_telemetry` call as an atomic trace
event: when both counters exist, a call during which `lo` output and `lr`
rejection pulses arrive leaves exactly the state of the same call with no
in-flight pulses followed by those pulses as separate events.  So traces of
`FwEvent`s (with `.send` events draining at zero in-flight pulses) reach
every state the firmware can reach under interleaving. -/
theorem send_late_pulses_eq (st : FwState) (cur : Nat) (resp : SendResponse)
    (rec : Bool) (lo lr : Nat) (hOut : st.outputCounterEnabled = true)
    (hRej : st.rejectionCounterEnabled = true) :
    (send_telemetry st cur resp rec lo lr).st =
      fwRun (send_telemetry st cur resp rec 0 0).st
        (List.replicate lo FwEvent.outputPulse ++
          List.replicate lr FwEvent.rejectionPulse) := by
  have hsplit : fwRun (send_telemetry st cur resp rec 0 0).st
      (List.replicate lo FwEvent.outputPulse ++ List.replicate lr FwEvent.rejectionPulse)
      = fwRun (fwRun (send_telemetry st cur resp rec 0 0).st
          (List.replicate lo FwEvent.outputPulse))
          (List.replicate lr FwEvent.rejectionPulse) := by
    simp [fwRun, List.foldl_append]
  rw [hsplit, fwRun_outputPulses, fwRun_rejectionPulses]
  by_cases h : resp = SendResponse.status 200
  · subst h
    simp [send_telemetry, hOut, hRej]
  · rw [send_telemetry_fail st cur resp rec lo lr h,
      send_telemetry_fail st cur resp rec 0 0 h]
    simp [failureUpdate, hOut, hRej]

/-- C1: for each channel independently, after any sequence of pulse-counter
increments and `send_telemetry` calls from a post-boot state (counters
present, registers and carries at zero), the hardware counter value plus the
accumulated unsent carry equals the number of pulses counted since the last
successful report: no pulse is dropped or double-counted across a
drain/restore cycle. -/
theorem pulse_conservation (st0 : FwState) (tr : List FwEvent)
    (hOutEn : st0.outputCounterEnabled = true)
    (hRejEn : st0.rejectionCounterEnabled = true)
    (hOut0 : st0.hwOutput = 0) (hUns0 : st0.accumulated_unsent_output = 0)
    (hRej0 : st0.hwRejection = 0) (hRUns0 : st0.accumulated_unsent_rejection = 0) :
    (fwRun st0 tr).hwOutput + (fwRun st0 tr).accumulated_unsent_output
        = outputPulsesSinceSuccess tr ∧
    (fwRun st0 tr).hwRejection + (fwRun st0 tr).accumulated_unsent_rejection
        = rejectionPulsesSinceSuccess tr := by
  constructor
  · have h := conservation_out_aux tr st0 hOutEn
    rw [hOut0, hUns0] at h
    exact h
  · have h := conservation_rej_aux tr st0 hRejEn
    rw [hRej0, hRUns0] at h
    exact h

/-- A sample trace: pulses on both channels, a failed report, more pulses, a
successful report, a trailing pulse. -/
def demoTrace : List FwEvent :=
  [FwEvent.outputPulse, FwEvent.outputPulse, FwEvent.rejectionPulse,
   FwEvent.send 1 (SendResponse.status 500) true,
   FwEvent.outputPulse,
   FwEvent.send 2 (SendResponse.status 200) true,
   FwEvent.outputPulse]

theorem pulse_conservation_witness :
    exampleState.outputCounterEnabled = true ∧
    exampleState.hwOutput = 0 ∧
    (fwRun exampleState demoTrace).hwOutput
        + (fwRun exampleState demoTrace).accumulated_unsent_output
      = outputPulsesSinceSuccess demoTrace ∧
    outputPulsesSinceSuccess demoTrace = 1 :=
  ⟨rfl, rfl,
    (pulse_conservation exampleState demoTrace rfl rfl rfl rfl rfl rfl).1,
    by decide⟩

lemma fwStep_fail500_failures (st : FwState) :
    (fwStep st (FwEvent.send 0 (SendResponse.status 500) true)).telemetry_failures
      = st.telemetry_failures + 1 := rfl

lemma afterFailures_failures (n : Nat) :
    ∀ st : FwState, (afterFailures st n).telemetry_failures
      = st.telemetry_failures + n := by
  induction n with
  | zero => intro st; rfl
  | succ n ih =>
    intro st
    have hstep : afterFailures st (n + 1)
        = afterFailures (fwStep st (FwEvent.send 0 (SendResponse.status 500) true)) n := by
      simp only [afterFailures, failTrace, List.replicate_succ]
      rfl
    rw [hstep, ih, fwStep_fail500_failures]
    omega

/-- C2: with `TELEMETRY_MAX_FAILURES = 5`, no reset is invoked while the
consecutive-failure count is below 5, and failing attempt number 5 (with no
intervening success, starting from a zero failure count) invokes the reset —
the first attempt at which it fires. -/
theorem escalation_threshold (st0 : FwState) (h0 : st0.telemetry_failures = 0)
    (i : Nat) (hi : i + 1 ≤ TELEMETRY_MAX_FAILURES) :
    ((nthFailureOutcome st0 i).resetCalled = true ↔ i + 1 = TELEMETRY_MAX_FAILURES) := by
  have hreset : (nthFailureOutcome st0 i).resetCalled
      = (check_telemetry_failure_limit ((afterFailures st0 i).telemetry_failures + 1)).1 := rfl
  rw [hreset, afterFailures_failures i st0, h0, check_limit_reset]
  simp only [TELEMETRY_MAX_FAILURES] at hi ⊢
  omega

theorem escalation_threshold_witness :
    exampleState.telemetry_failures = 0 ∧
    4 + 1 ≤ TELEMETRY_MAX_FAILURES ∧
    ((nthFailureOutcome exampleState 4).resetCalled = true ↔ 4 + 1 = TELEMETRY_MAX_FAILURES) ∧
    ((nthFailureOutcome exampleState 3).resetCalled = true ↔ 3 + 1 = TELEMETRY_MAX_FAILURES) :=
  ⟨rfl, by decide, escalation_threshold exampleState rfl 4 (by decide),
    escalation_threshold exampleState rfl 3 (by decide)⟩

/-- C3: on every failed report attempt (non-200 status or transport
exception), `send_telemetry` saves the full drained totals back into both
channels' accumulators, runs the connectivity-recovery step, and increments
the consecutive-failure count; from a zero failure count the result is one
recorded failure and no reset. -/
theorem failure_handling (st : FwState) (cur : Nat) (resp : SendResponse)
    (rec : Bool) (lo lr : Nat) (hresp : resp ≠ SendResponse.status 200)
    (h0 : st.telemetry_failures = 0) :
    (send_telemetry st cur resp rec lo lr).st.accumulated_unsent_output
        = (if st.outputCounterEnabled then st.hwOutput else 0)
            + st.accumulated_unsent_output ∧
    (send_telemetry st cur resp rec lo lr).st.accumulated_unsent_rejection
        = (if st.rejectionCounterEnabled then st.hwRejection else 0)
            + st.accumulated_unsent_rejection ∧
    (send_telemetry st cur resp rec lo lr).recoveryAttempted = true ∧
    (send_telemetry st cur resp rec lo lr).st.telemetry_failures = 1 ∧
    (send_telemetry st cur resp rec lo lr).resetCalled = false := by
  rw [send_telemetry_fail st cur resp rec lo lr hresp]
  refine ⟨rfl, rfl, rfl, by simp [failureUpdate, h0], ?_⟩
  simp [failureUpdate, h0, check_telemetry_failure_limit, TELEMETRY_MAX_FAILURES]

/-- The spec's one-failure scenario: 7 drained output pulses, clean state. -/
def scenarioOneFailure : FwState :=
  ⟨7, 0, true, true, 0, 0, 0, true⟩

theorem failure_handling_witness :
    (send_telemetry scenarioOneFailure 2 (SendResponse.status 500) true 0 0).st.accumulated_unsent_output = 7 ∧
    (send_telemetry scenarioOneFailure 2 (SendResponse.status 500) true 0 0).st.telemetry_failures = 1 ∧
    (send_telemetry scenarioOneFailure 2 (SendResponse.status 500) true 0 0).recoveryAttempted = true ∧
    (send_telemetry scenarioOneFailure 2 (SendResponse.status 500) true 0 0).resetCalled = false := by
  have h := failure_handling scenarioOneFailure 2 (SendResponse.status 500) true 0 0
    (by decide) rfl
  exact ⟨h.1, h.2.2.2.1, h.2.2.1, h.2.2.2.2⟩

/-- C4: on a failed send of a configured channel, the restore adds the
freshly drained hardware count onto the previously unsent carry (the totals
compose additively), while pulses that arrived during the attempt stay in
the hardware register untouched — nothing is overwritten or lost. -/
theorem restore_is_additive (st : FwState) (cur : Nat) (resp : SendResponse)
    (rec : Bool) (lo lr : Nat) (hEn : st.outputCounterEnabled = true)
    (hresp : resp ≠ SendResponse.status 200) :
    (send_telemetry st cur resp rec lo lr).st.accumulated_unsent_output
        = st.accumulated_unsent_output + st.hwOutput ∧
    (send_telemetry st cur resp rec lo lr).st.hwOutput = lo := by
  rw [send_telemetry_fail st cur resp rec lo lr hresp]
  constructor
  · simp [failureUpdate, hEn]
    omega
  · simp [failureUpdate, hEn]

theorem restore_is_additive_witness :
    (send_telemetry ⟨4, 0, true, true, 2, 0, 1, true⟩ 9 SendResponse.exc true 3 0).st.accumulated_unsent_output = 6 ∧
    (send_telemetry ⟨4, 0, true, true, 2, 0, 1, true⟩ 9 SendResponse.exc true 3 0).st.hwOutput = 3 :=
  restore_is_additive ⟨4, 0, true, true, 2, 0, 1, true⟩ 9 SendResponse.exc true 3 0
    rfl (by decide)

/-- C5: one successful report (HTTP 200) after any number of consecutive
failures from 1 through `TELEMETRY_MAX_FAILURES - 1` zeroes the
consecutive-failure count. -/
theorem success_resets_failures (st : FwState) (cur : Nat) (rec : Bool)
    (lo lr : Nat) (_h1 : 1 ≤ st.telemetry_failures)
    (_h2 : st.telemetry_failures ≤ TELEMETRY_MAX_FAILURES - 1) :
    (send_telemetry st cur (SendResponse.status 200) rec lo lr).st.telemetry_failures
      = 0 := rfl

theorem success_resets_failures_witness :
    1 ≤ (3 : Nat) ∧ (3 : Nat) ≤ TELEMETRY_MAX_FAILURES - 1 ∧
    (send_telemetry ⟨6, 2, true, true, 5, 1, 3, true⟩ 4 (SendResponse.status 200)
        true 0 0).st.telemetry_failures = 0 :=
  ⟨by decide, by decide,
    success_resets_failures ⟨6, 2, true, true, 5, 1, 3, true⟩ 4 true 0 0
      (by decide) (by decide)⟩

lemma fail_cycle_out_total (st : FwState) (cur : Nat) (resp : SendResponse)
    (rec : Bool) (hresp : resp ≠ SendResponse.status 200) :
    unsentOutputTotal (send_telemetry st cur resp rec 0 0).st
      = unsentOutputTotal st := by
  rw [send_telemetry_fail st cur resp rec 0 0 hresp]
  unfold unsentOutputTotal
  cases h : st.outputCounterEnabled <;> simp [failureUpdate, h]

lemma fail_cycle_rej_total (st : FwState) (cur : Nat) (resp : SendResponse)
    (rec : Bool) (hresp : resp ≠ SendResponse.status 200) :
    unsentRejectionTotal (send_telemetry st cur resp rec 0 0).st
      = unsentRejectionTotal st := by
  rw [send_telemetry_fail st cur resp rec 0 0 hresp]
  unfold unsentRejectionTotal
  cases h : st.rejectionCounterEnabled <;> simp [failureUpdate, h]

/-- C6: for every `N`, repeating the drain → failed send → restore cycle `N`
times with no pulses arriving in between leaves each channel's accumulated
unsent count (hardware register plus software carry) unchanged. -/
theorem failed_cycles_preserve_unsent (cur : Nat) (resp : SendResponse)
    (rec : Bool) (hresp : resp ≠ SendResponse.status 200) :
    ∀ (n : Nat) (st : FwState),
      unsentOutputTotal (sendCycles cur resp rec n st) = unsentOutputTotal st ∧
      unsentRejectionTotal (sendCycles cur resp rec n st) = unsentRejectionTotal st := by
  intro n
  induction n with
  | zero => intro st; exact ⟨rfl, rfl⟩
  | succ n ih =>
    intro st
    have hrec : sendCycles cur resp rec (n + 1) st
        = sendCycles cur resp rec n (send_telemetry st cur resp rec 0 0).st := rfl
    rw [hrec]
    refine ⟨?_, ?_⟩
    · rw [(ih (send_telemetry st cur resp rec 0 0).st).1,
        fail_cycle_out_total st cur resp rec hresp]
    · rw [(ih (send_telemetry st cur resp rec 0 0).st).2,
        fail_cycle_rej_total st cur resp rec hresp]

theorem failed_cycles_preserve_unsent_witness :
    unsentOutputTotal (sendCycles 2 (SendResponse.status 503) true 3
        ⟨4, 1, true, true, 2, 0, 0, true⟩) = 6 ∧
    unsentOutputTotal (⟨4, 1, true, true, 2, 0, 0, true⟩ : FwState) = 6 := by
  have h := (failed_cycles_preserve_unsent 2 (SendResponse.status 503) true
    (by decide) 3 ⟨4, 1, true, true, 2, 0, 0, true⟩).1
  exact ⟨by rw [h]; rfl, rfl⟩

/-- C7: a submission is treated as successful exactly when the HTTP status
is 200 (a transport exception never is); on any other outcome the drained
totals are preserved in the accumulators and the failure count is
incremented. -/
theorem success_iff_http_200 (st : FwState) (cur : Nat) (resp : SendResponse)
    (rec : Bool) (lo lr : Nat) :
    ((send_telemetry st cur resp rec lo lr).returned = true
        ↔ resp = SendResponse.status 200) ∧
    (resp ≠ SendResponse.status 200 →
      (send_telemetry st cur resp rec lo lr).st.accumulated_unsent_output
          = (if st.outputCounterEnabled then st.hwOutput else 0)
              + st.accumulated_unsent_output ∧
      (send_telemetry st cur resp rec lo lr).st.accumulated_unsent_rejection
          = (if st.rejectionCounterEnabled then st.hwRejection else 0)
              + st.accumulated_unsent_rejection ∧
      (send_telemetry st cur resp rec lo lr).st.telemetry_failures
          = st.telemetry_failures + 1) := by
  by_cases h : resp = SendResponse.status 200
  · subst h
    refine ⟨by simp [send_telemetry], fun hc => absurd rfl hc⟩
  · rw [send_telemetry_fail st cur resp rec lo lr h]
    exact ⟨by simp [failureUpdate, check_limit_returned, h], fun _ => ⟨rfl, rfl, rfl⟩⟩

theorem success_iff_http_200_witness :
    ((send_telemetry exampleState 1 (SendResponse.status 404) true 0 0).returned = true
        ↔ SendResponse.status 404 = SendResponse.status 200) ∧
    ((send_telemetry exampleState 1 (SendResponse.status 200) true 0 0).returned = true
        ↔ SendResponse.status 200 = SendResponse.status 200) :=
  ⟨(success_iff_http_200 exampleState 1 (SendResponse.status 404) true 0 0).1,
    (success_iff_http_200 exampleState 1 (SendResponse.status 200) true 0 0).1⟩

/-- C8: a configuration failure — unreadable or missing `settings.json`, or
no remote configuration returned (`get_configuration` gives `None` on a
non-200 status, an exception, or an unparseable body) — makes the startup
path of `run` reset the device at once, with no retry. -/
theorem config_failure_resets (settings : Option DeviceSettings)
    (r : ConfigHttpResult)
    (h : settings = none ∨ get_configuration r = none) :
    run_setup settings r = RunOutcome.resetDevice := by
  cases settings with
  | none => rfl
  | some s =>
    rcases h with h | h
    · exact absurd h (by simp)
    · simp [run_setup, h]

theorem config_failure_resets_witness :
    get_configuration (ConfigHttpResult.response 503 none) = none ∧
    run_setup (some ⟨"site", "dev1", "k", "s"⟩) (ConfigHttpResult.response 503 none)
      = RunOutcome.resetDevice ∧
    run_setup none ConfigHttpResult.exc = RunOutcome.resetDevice :=
  ⟨rfl,
    config_failure_resets (some ⟨"site", "dev1", "k", "s"⟩)
      (ConfigHttpResult.response 503 none) (Or.inr rfl),
    config_failure_resets none ConfigHttpResult.exc (Or.inl rfl)⟩

lemma fwStep_disabled_unsent (st : FwState) (e : FwEvent)
    (hEn : st.outputCounterEnabled = false)
    (h0 : st.accumulated_unsent_output = 0) :
    (fwStep st e).accumulated_unsent_output = 0 := by
  cases e with
  | outputPulse => exact h0
  | rejectionPulse => exact h0
  | send cur resp rec =>
    by_cases h : resp = SendResponse.status 200
    · subst h
      rfl
    · rw [show fwStep st (FwEvent.send cur resp rec)
          = (send_telemetry st cur resp rec 0 0).st from rfl,
        send_telemetry_fail st cur resp rec 0 0 h]
      simp [failureUpdate, hEn, h0]

lemma disabled_outcomes_aux :
    ∀ (tr : List FwEvent) (st : FwState),
      st.outputCounterEnabled = false → st.accumulated_unsent_output = 0 →
      ∀ o ∈ sendOutcomes st tr, o.sentOutput = 0 := by
  intro tr
  induction tr with
  | nil => intro st _ _ o ho; simp [sendOutcomes] at ho
  | cons e tr ih =>
    intro st hEn h0 o ho
    have hnext := ih (fwStep st e) ((fwStep_preserves_enabled st e).1.trans hEn)
      (fwStep_disabled_unsent st e hEn h0)
    cases e with
    | outputPulse => exact hnext o ho
    | rejectionPulse => exact hnext o ho
    | send cur resp rec =>
      rw [sendOutcomes] at ho
      rcases List.mem_cons.mp ho with h | h
      · subst h
        by_cases hr : resp = SendResponse.status 200
        · subst hr
          simp [send_telemetry, hEn, h0]
        · rw [send_telemetry_fail st cur resp rec 0 0 hr]
          simp [failureUpdate, hEn, h0]
      · exact hnext o h

/-- C9: when a channel is not enabled (its counter object was never
created), the pending count sent in every report is zero and the restore
after a failed report is a no-op (the accumulator stays at zero), while each
report is still posted, carrying the current reading. -/
theorem disabled_channel_reports (st : FwState)
    (hEn : st.outputCounterEnabled = false)
    (h0 : st.accumulated_unsent_output = 0) :
    (∀ (cur : Nat) (resp : SendResponse) (rec : Bool) (lo lr : Nat),
        (send_telemetry st cur resp rec lo lr).sentOutput = 0 ∧
        (send_telemetry st cur resp rec lo lr).st.accumulated_unsent_output = 0 ∧
        (send_telemetry st cur resp rec lo lr).sentCurrent = cur) ∧
    (∀ tr : List FwEvent, ∀ o ∈ sendOutcomes st tr, o.sentOutput = 0) := by
  constructor
  · intro cur resp rec lo lr
    by_cases h : resp = SendResponse.status 200
    · subst h
      refine ⟨?_, rfl, rfl⟩
      simp [send_telemetry, hEn, h0]
    · rw [send_telemetry_fail st cur resp rec lo lr h]
      refine ⟨?_, ?_, rfl⟩ <;> simp [failureUpdate, hEn, h0]
  · intro tr
    exact disabled_outcomes_aux tr st hEn h0

theorem disabled_channel_reports_witness :
    (send_telemetry ⟨5, 2, false, true, 0, 1, 0, true⟩ 3 (SendResponse.status 500)
        true 0 0).sentOutput = 0 ∧
    (send_telemetry ⟨5, 2, false, true, 0, 1, 0, true⟩ 3 (SendResponse.status 500)
        true 0 0).st.accumulated_unsent_output = 0 ∧
    (send_telemetry ⟨5, 2, false, true, 0, 1, 0, true⟩ 3 (SendResponse.status 500)
        true 0 0).sentCurrent = 3 :=
  (disabled_channel_reports ⟨5, 2, false, true, 0, 1, 0, true⟩ rfl rfl).1
    3 (SendResponse.status 500) true 0 0

/-- C10 counterexample: with the output channel enabled under a valid
`'NPN'` type and the rejection channel enabled under the invalid type
`'XYZ'`, `run` does not reset — no branch of lines 233-238 runs, but the
edge-action locals still hold the output channel's actions from lines
219-221, so `PCNT(1, ...)` at line 239 is constructed with those stale
actions and the device enters the main loop with the rejection channel
silently counting on the output channel's polarity. -/
theorem invalid_rejection_type_no_reset :
    run_setup (some ⟨"site", "dev1", "k", "s"⟩)
        (ConfigHttpResult.response 200
          (some ⟨true, true, "NPN", true, "XYZ", 60⟩))
      = RunOutcome.mainLoop (some (EdgeAction.ignore, EdgeAction.increment))
          (some (EdgeAction.ignore, EdgeAction.increment)) 60 ∧
    run_setup (some ⟨"site", "dev1", "k", "s"⟩)
        (ConfigHttpResult.response 200
          (some ⟨true, true, "NPN", true, "XYZ", 60⟩))
      ≠ RunOutcome.resetDevice := by
  exact ⟨rfl, by decide⟩

/-- C10 (amended): a signal type that is neither `'NPN'` nor `'PNP'` resets
the device exactly when the edge-action locals were never bound — always
for an enabled output channel, and for an enabled rejection channel only
when the output channel is disabled.  (When the output channel is enabled
with a valid type, an invalid rejection type instead silently reuses the
output channel's edge actions: see `invalid_rejection_type_no_reset`.) -/
theorem invalid_signal_type_resets (s : DeviceSettings) (cfg : DeviceConfig)
    (h : (cfg.enable_output_signal = true ∧ cfg.output_signal_type ≠ "NPN" ∧
            cfg.output_signal_type ≠ "PNP") ∨
         (cfg.enable_output_signal = false ∧
            cfg.enable_rejection_signal = true ∧
            cfg.rejection_signal_type ≠ "NPN" ∧
            cfg.rejection_signal_type ≠ "PNP")) :
    run_setup (some s) (ConfigHttpResult.response 200 (some cfg))
      = RunOutcome.resetDevice := by
  rcases h with ⟨hEn, h1, h2⟩ | ⟨hOut, hEn, h1, h2⟩
  · simp [run_setup, get_configuration, hEn, edgeActions, h1, h2]
  · simp [run_setup, get_configuration, hOut, hEn, edgeActions, h1, h2]

theorem invalid_signal_type_resets_witness :
    run_setup (some ⟨"site", "dev1", "k", "s"⟩)
        (ConfigHttpResult.response 200
          (some ⟨true, true, "push-pull", false, "NPN", 60⟩))
      = RunOutcome.resetDevice ∧
    run_setup (some ⟨"site", "dev1", "k", "s"⟩)
        (ConfigHttpResult.response 200
          (some ⟨true, false, "NPN", true, "XYZ", 60⟩))
      = RunOutcome.resetDevice :=
  ⟨invalid_signal_type_resets ⟨"site", "dev1", "k", "s"⟩
      ⟨true, true, "push-pull", false, "NPN", 60⟩
      (Or.inl ⟨rfl, by decide, by decide⟩),
    invalid_signal_type_resets ⟨"site", "dev1", "k", "s"⟩
      ⟨true, false, "NPN", true, "XYZ", 60⟩
      (Or.inr ⟨rfl, rfl, by decide, by decide⟩)⟩
